import Mathlib

/-!
Shallow embedding of the Avvo lawyers scraper (src/main.js) and proofs of the
spec claims about it. JavaScript objects are modelled as Lean structures,
JSON numbers as `Rat`, absent fields as `Option`, and the JS truthiness
conventions (`x || d`, `x ?? d`, `if (x)`) by explicit helper functions.
Stateful pieces (the run-scoped counters, the seen-URL set, the request
handler) are modelled by explicit state passing.
-/

namespace Avvo

/-- JS `x || d` for string-valued fields: `undefined`, `null` and the empty
string are falsy, any other string is truthy. -/
def jsOr (x : Option String) (d : String) : String :=
  match x with
  | some s => if s = "" then d else s
  | none => d

/-- JS `x || null` for number-valued fields: `undefined`, `null` and `0` are
falsy. Used for `attorneyData.aggregateRating?.ratingValue || null`. -/
def jsOrNum (x : Option Rat) : Option Rat :=
  match x with
  | some v => if v = 0 then none else some v
  | none => none

/-- JS `x || d` for number-valued fields with a numeric default, as in
`attorneyData.aggregateRating?.reviewCount || 0`. -/
def jsOrNumD (x : Option Rat) (d : Rat) : Rat :=
  match x with
  | some v => if v = 0 then d else v
  | none => d

/-- The pattern (second argument) occurs at the head of the character
list (first argument). -/
def headMatch : List Char → List Char → Bool
  | _, [] => true
  | [], _ :: _ => false
  | c :: s, d :: pat => c == d && headMatch s pat

/-- The pattern (second argument) occurs somewhere in the character list
(first argument). -/
def occursIn : List Char → List Char → Bool
  | [], pat => headMatch [] pat
  | c :: s, pat => headMatch (c :: s) pat || occursIn s pat

/-- JS `s.includes(pat)`. -/
def containsSubstr (s pat : String) : Bool :=
  occursIn s.data pat.data

/-- JS `s.startsWith(pat)`. -/
def jsStartsWith (s pat : String) : Bool :=
  headMatch s.data pat.data

/-- The `address` field of a JSON-LD attorney entry: either a plain string or
a structured postal-address object (main.js lines 78-89). -/
inductive AddressVal where
  | str (s : String)
  | obj (addressLocality addressRegion postalCode : Option String)
deriving DecidableEq, Repr

/-- The `aggregateRating` sub-object of a JSON-LD attorney entry. -/
structure AggRating where
  ratingValue : Option Rat
  reviewCount : Option Rat
deriving DecidableEq, Repr

/-- A raw JSON-LD attorney entry as consumed by `parseAttorneySchema`
(main.js lines 77-111). `knowsAbout = some l` models the case where the field
is an array (the `Array.isArray` test); any non-array value is `none`. -/
structure RawAttorney where
  name : Option String
  address : Option AddressVal
  knowsAbout : Option (List String)
  areaServed : Option String
  aggregateRating : Option AggRating
  telephone : Option String
  email : Option String
  url : Option String
  description : Option String
deriving DecidableEq, Repr

/-- The canonical lawyer record produced by every extraction strategy
(main.js lines 95-110, 280-295, 610-625). -/
structure Lawyer where
  name : String
  rating : Option Rat
  reviewCount : Rat
  practiceAreas : List String
  location : String
  phone : String
  email : String
  website : String
  yearsLicensed : Option Rat
  barAdmissions : List String
  languages : List String
  profileUrl : String
  bio : String
  scrapedAt : String
deriving DecidableEq, Repr

/-- Function `parseAttorneySchema` (main.js lines 77-111). `now` stands for
`new Date().toISOString()`. The JS line `const address = attorneyData.address
|| ...` replaces a falsy address (absent, or the empty string) by the empty
object, which the `typeof` test then sends through the structured branch. -/
def parseAttorneySchema (a : RawAttorney) (now : String) : Lawyer :=
  let address : AddressVal :=
    match a.address with
    | some (.str s) => if s = "" then .obj none none none else .str s
    | some v => v
    | none => .obj none none none
  let location : String :=
    match address with
    | .str s => s
    | .obj l r p =>
        String.intercalate ", " (([l, r, p].filterMap id).filter (fun s => s != ""))
  let practiceAreas : List String :=
    match a.knowsAbout with
    | some areas => areas
    | none =>
        match a.areaServed with
        | some s => if s = "" then [] else [s]
        | none => []
  { name := jsOr a.name ""
    rating := jsOrNum (a.aggregateRating.bind (fun g => g.ratingValue))
    reviewCount := jsOrNumD (a.aggregateRating.bind (fun g => g.reviewCount)) 0
    practiceAreas := practiceAreas
    location := location
    phone := jsOr a.telephone ""
    email := jsOr a.email ""
    website := jsOr a.url ""
    yearsLicensed := none
    barAdmissions := []
    languages := []
    profileUrl := jsOr a.url ""
    bio := jsOr a.description ""
    scrapedAt := now }

/-- The observable content of a profile detail page response, as seen by
`fetchLawyerProfile`: the HTTP status, the page title, the trimmed text of
the first bio-selector match (empty when none matches), and the trimmed
texts of the education/award list items in document order. -/
structure ProfilePage where
  statusCode : Nat
  title : String
  bioText : String
  educationItems : List String
  awardsItems : List String
deriving DecidableEq, Repr

/-- The extra profile fields scraped from a detail page
(main.js lines 152-171). -/
structure ProfileData where
  bio : String
  education : List String
  awards : List String
deriving DecidableEq, Repr

/-- Result of `fetchLawyerProfile`: the sentinel blocked object, or the
parsed additional info. The JS `null` returns are modelled by the fetch
returning `none` at the `Option FetchOutcome` level. -/
inductive FetchOutcome where
  | blocked
  | info (d : ProfileData)
deriving DecidableEq, Repr

/-- Response handling of `fetchLawyerProfile` (main.js lines 117-181): 403/503
and challenge-titled 200 pages are blocked; other non-200 statuses yield
`null` (here `none`); a clean 200 yields the parsed additional info, keeping
only non-empty education/award items (the `if (education)` pushes). -/
def fetchLawyerProfile (p : ProfilePage) : Option FetchOutcome :=
  if p.statusCode = 403 ∨ p.statusCode = 503 then some .blocked
  else if p.statusCode ≠ 200 then none
  else if containsSubstr p.title "Just a moment" ∨ containsSubstr p.title "Cloudflare" then
    some .blocked
  else
    some (.info
      { bio := p.bioText
        education := p.educationItems.filter (fun s => s != "")
        awards := p.awardsItems.filter (fun s => s != "") })

/-- A record as pushed to the dataset: the base lawyer object, plus the
`education`/`awards` fields that exist only when the enrichment spread
`...lawyer, bio, education, awards` added them (`none` = field absent). -/
structure ELawyer where
  core : Lawyer
  education : Option (List String)
  awards : Option (List String)
deriving DecidableEq, Repr

/-- A base lawyer record viewed as a dataset record (no enrichment-only
fields). -/
def toE (l : Lawyer) : ELawyer :=
  { core := l, education := none, awards := none }

/-- Enrichment step for one record (main.js lines 204-225): no fetch without a
profileUrl; a blocked fetch leaves the record unchanged and contributes 1 to
the blockedCount; a null fetch leaves it unchanged; data overlays
`bio: profileData.bio || lawyer.bio` and sets education/awards to the
fetched lists (arrays are always truthy in JS, so `|| []` is the identity).
The second component is the contribution of the record to blockedCount. -/
def enrichOne (fetch : String → Option FetchOutcome) (l : Lawyer) : ELawyer × Nat :=
  if l.profileUrl = "" then (toE l, 0)
  else
    match fetch l.profileUrl with
    | some .blocked => (toE l, 1)
    | some (.info d) =>
        ({ core := { l with bio := if d.bio = "" then l.bio else d.bio }
           education := some d.education
           awards := some d.awards }, 0)
    | none => (toE l, 0)

/-- Function `enrichLawyersWithProfiles` (main.js lines 186-242). The JS code walks
the list in batches of `maxConcurrency` with `Promise.all`; each batch
preserves input order and batches are concatenated in order, so the result
is the per-record step applied pointwise and blockedCount is the sum of the
per-record contributions. -/
def enrichLawyersWithProfiles (fetch : String → Option FetchOutcome)
    (lawyers : List Lawyer) : List ELawyer × Nat :=
  (lawyers.map (fun l => (enrichOne fetch l).1),
   (lawyers.map (fun l => (enrichOne fetch l).2)).sum)

/-- The `uniqueLawyers` filter (main.js lines 835-845): a record without a
profileUrl always passes; a seen profileUrl is dropped; an unseen one is
recorded in `seenLawyerUrls` and passes. The `Set` is modelled as a list
with membership; returns the admitted records and the updated set. -/
def dedupFilter (seen : List String) : List Lawyer → List Lawyer × List String
  | [] => ([], seen)
  | l :: ls =>
    if l.profileUrl = "" then
      let r := dedupFilter seen ls
      (l :: r.1, r.2)
    else if l.profileUrl ∈ seen then
      dedupFilter seen ls
    else
      let r := dedupFilter (l.profileUrl :: seen) ls
      (l :: r.1, r.2)

/-- Deduplication over a whole run: the record batches of the pages pass through
`dedupFilter` in order, threading the run-scoped `seenLawyerUrls` set.
Returns all emitted records in order and the final set. -/
def runDedup (seen : List String) : List (List Lawyer) → List Lawyer × List String
  | [] => ([], seen)
  | pg :: pgs =>
    let r := dedupFilter seen pg
    let rest := runDedup r.2 pgs
    (r.1 ++ rest.1, rest.2)

/-- Outcome of the three-strategy extraction cascade (main.js lines
798-823): the extracted records, the value of the run-scoped
`extractionMethod` variable after the cascade, and the labels of the
strategies that were invoked, in invocation order. -/
structure CascadeResult where
  lawyers : List Lawyer
  extractionMethod : String
  invoked : List String
deriving DecidableEq, Repr

/-- The strategy cascade (main.js lines 798-823). Strategy 1 (JSON-LD)
always runs; Strategy 2 (embedded API data) runs only when Strategy 1
returned nothing; Strategy 3 (HTML parsing) only when both returned nothing.
`prevMethod` is the run-scoped `extractionMethod` value before this page,
kept when no strategy yields records. -/
def strategyCascade (jsonLd api html : List Lawyer) (prevMethod : String) : CascadeResult :=
  if jsonLd.length > 0 then
    { lawyers := jsonLd, extractionMethod := "JSON-LD", invoked := ["JSON-LD"] }
  else if api.length > 0 then
    { lawyers := api, extractionMethod := "Internal API"
      invoked := ["JSON-LD", "Internal API"] }
  else if html.length > 0 then
    { lawyers := html, extractionMethod := "HTML Parsing (Cheerio)"
      invoked := ["JSON-LD", "Internal API", "HTML Parsing (Cheerio)"] }
  else
    { lawyers := [], extractionMethod := prevMethod
      invoked := ["JSON-LD", "Internal API", "HTML Parsing (Cheerio)"] }

/-- The run-scoped mutable state of the actor (main.js lines 692-697):
`totalLawyersScraped`, `pagesProcessed`, `extractionMethod`,
`seenLawyerUrls`. -/
structure RunState where
  totalLawyersScraped : Nat
  pagesProcessed : Nat
  extractionMethod : String
  seenLawyerUrls : List String
deriving DecidableEq, Repr

/-- What one listing page presents to the request handler: the challenge
detection result of the title/body-text test at each iteration of the
Cloudflare loop (`challengeAt k` is the test at retryCount `k`), the records
each extraction strategy would yield, and the next-page control state. -/
structure PageInput where
  challengeAt : Nat → Bool
  jsonLd : List Lawyer
  api : List Lawyer
  html : List Lawyer
  hasNextPage : Bool
  nextPageUrl : String

/-- The observable outcome of one `requestHandler` invocation: the updated
run state, the records pushed to the dataset on this page, the next-page
request if one was enqueued, how many debug snapshots were written, and
whether an error escaped the handler (the try/catch in the handler logs and
swallows everything, so this is always false). -/
structure PageOutcome where
  state : RunState
  emitted : List ELawyer
  requestedNext : Option String
  snapshotWrites : Nat
  aborted : Bool

/-- Final value of `retryCount` after the Cloudflare remediation loop
(main.js lines 747-788): the loop runs while `retryCount < 3`, incrementing
on each detection and breaking on the first non-detection. -/
def cfRetryCount (c : Nat → Bool) : Nat :=
  if c 0 = false then 0
  else if c 1 = false then 1
  else if c 2 = false then 2
  else 3

/-- One `requestHandler` invocation (main.js lines 724-899), with the
navigation already done and its observable inputs in `pg`. Mirrors, in
order: the pagesProcessed increment (725), the Cloudflare loop and its
give-up snapshot (747-794), the strategy cascade (798-823), the
zero-records snapshot (825-828), the budget slice (831-833), the dedup
filter (835-851), the optional enrichment (853-856), the push and total
update (858-862), the budget halt (864-867), and the next-page check
(869-889). -/
def processPage (maxLawyers : Nat) (includeContactInfo : Bool)
    (fetch : String → Option FetchOutcome)
    (st : RunState) (pg : PageInput) : PageOutcome :=
  let st1 := { st with pagesProcessed := st.pagesProcessed + 1 }
  if cfRetryCount pg.challengeAt ≥ 3 then
    { state := st1, emitted := [], requestedNext := none, snapshotWrites := 1, aborted := false }
  else
    let cas := strategyCascade pg.jsonLd pg.api pg.html st1.extractionMethod
    let st2 := { st1 with extractionMethod := cas.extractionMethod }
    if cas.lawyers.length = 0 then
      { state := st2, emitted := [], requestedNext := none, snapshotWrites := 1, aborted := false }
    else
      let sliced :=
        if maxLawyers > 0 then cas.lawyers.take (maxLawyers - st2.totalLawyersScraped)
        else cas.lawyers
      let dd := dedupFilter st2.seenLawyerUrls sliced
      let st3 := { st2 with seenLawyerUrls := dd.2 }
      let toSave : List ELawyer :=
        if 0 < dd.1.length ∧ includeContactInfo = true then
          (enrichLawyersWithProfiles fetch dd.1).1
        else dd.1.map toE
      let st4 :=
        if 0 < toSave.length then
          { st3 with totalLawyersScraped := st3.totalLawyersScraped + toSave.length }
        else st3
      if maxLawyers > 0 ∧ st4.totalLawyersScraped ≥ maxLawyers then
        { state := st4, emitted := toSave, requestedNext := none
          snapshotWrites := 0, aborted := false }
      else
        let next :=
          if pg.hasNextPage = true ∧ st4.totalLawyersScraped < maxLawyers
              ∧ pg.nextPageUrl ≠ "" ∧ jsStartsWith pg.nextPageUrl "http" = true then
            some pg.nextPageUrl
          else none
        { state := st4, emitted := toSave, requestedNext := next
          snapshotWrites := 0, aborted := false }

/-- The default `const maxLawyers = input.maxLawyers ?? 50` (main.js line 680): the
nullish-coalescing default, applied only when the input omits the value. -/
def resolveMaxLawyers (inputMax : Option Int) : Int :=
  match inputMax with
  | some v => v
  | none => 50

/-- The input validation of main.js lines 681-683: the resolved maxLawyers
must lie in [0, 10000] or the run aborts before any network activity. -/
def validMaxLawyers (m : Int) : Bool :=
  decide (0 ≤ m ∧ m ≤ 10000)

/-! ### Concrete fixtures used by witness statements -/

/-- A minimal concrete lawyer record with profile URL `u`. -/
def lw (u : String) : Lawyer :=
  { name := "Jane Doe", rating := none, reviewCount := 0, practiceAreas := []
    location := "", phone := "", email := "", website := u, yearsLicensed := none
    barAdmissions := [], languages := [], profileUrl := u, bio := ""
    scrapedAt := "2026-01-01" }

/-- A concrete raw JSON-LD attorney entry with the given address. -/
def rawJane (addr : Option AddressVal) : RawAttorney :=
  { name := some "Jane Doe", address := addr, knowsAbout := some ["Bankruptcy"]
    areaServed := none, aggregateRating := none, telephone := some "555-0100"
    email := none, url := some "https://www.avvo.com/attorneys/jane.html"
    description := none }

/-- A 403 detail-page response. -/
def page403 : ProfilePage :=
  { statusCode := 403, title := "Attention Required", bioText := ""
    educationItems := [], awardsItems := [] }

/-- A clean 200 detail-page response carrying a bio and lists. -/
def pageBio : ProfilePage :=
  { statusCode := 200, title := "Jane Doe - Avvo", bioText := "Fetched bio"
    educationItems := ["Harvard Law", ""], awardsItems := ["Super Lawyers"] }

/-- The fresh run state (main.js lines 692-697). -/
def st0 : RunState :=
  { totalLawyersScraped := 0, pagesProcessed := 0, extractionMethod := "None"
    seenLawyerUrls := [] }

/-! ### Claim theorems -/

/-- C10: every record produced by the JSON-LD strategy (`parseAttorneySchema`)
has `yearsLicensed = null`, empty `barAdmissions` and `languages`, and its
`website` equal to its `profileUrl` (both read from the same raw `url`). -/
theorem jsonld_record_defaults (a : RawAttorney) (now : String) :
    (parseAttorneySchema a now).yearsLicensed = none
    ∧ (parseAttorneySchema a now).barAdmissions = []
    ∧ (parseAttorneySchema a now).languages = []
    ∧ (parseAttorneySchema a now).website = (parseAttorneySchema a now).profileUrl := by
  simp [parseAttorneySchema]

/-- C5: address normalization in `parseAttorneySchema`: a plain-string
address becomes the location verbatim; a structured address becomes
locality, region and postal code joined with a comma-space, keeping only
present non-empty parts; in particular Springfield/IL/empty-postal-code
yields "Springfield, IL". -/
theorem address_normalization :
    (∀ (a : RawAttorney) (now s : String), a.address = some (.str s) →
        (parseAttorneySchema a now).location = s)
    ∧ (∀ (a : RawAttorney) (now : String) (l r p : Option String),
        a.address = some (.obj l r p) →
        (parseAttorneySchema a now).location
          = String.intercalate ", " (([l, r, p].filterMap id).filter (fun s => s != "")))
    ∧ (∀ (a : RawAttorney) (now : String),
        a.address = some (.obj (some "Springfield") (some "IL") (some "")) →
        (parseAttorneySchema a now).location = "Springfield, IL") := by
  refine ⟨?_, ?_, ?_⟩
  · intro a now s h
    by_cases hs : s = ""
    · simp [parseAttorneySchema, h, hs]
      decide
    · simp [parseAttorneySchema, h, hs]
  · intro a now l r p h
    simp [parseAttorneySchema, h]
  · intro a now h
    simp [parseAttorneySchema, h]
    decide

/-- Witness for C5 at concrete inputs. -/
theorem address_normalization_witness :
    (parseAttorneySchema (rawJane (some (.str "Boston, MA"))) "t").location = "Boston, MA"
    ∧ (parseAttorneySchema
        (rawJane (some (.obj (some "Springfield") (some "IL") (some "")))) "t").location
        = "Springfield, IL" :=
  ⟨address_normalization.1 (rawJane (some (.str "Boston, MA"))) "t" "Boston, MA" rfl,
   address_normalization.2.2
     (rawJane (some (.obj (some "Springfield") (some "IL") (some "")))) "t" rfl⟩

/-- C2: the extraction strategies run in the fixed order JSON-LD, embedded
API data, HTML parsing; the invoked strategies always form an initial
segment of that order; an earlier non-empty result short-circuits the later
strategies and its label becomes the recorded extraction method. -/
theorem strategy_cascade_order (jsonLd api html : List Lawyer) (prev : String) :
    ((strategyCascade jsonLd api html prev).invoked = ["JSON-LD"]
      ∨ (strategyCascade jsonLd api html prev).invoked = ["JSON-LD", "Internal API"]
      ∨ (strategyCascade jsonLd api html prev).invoked
          = ["JSON-LD", "Internal API", "HTML Parsing (Cheerio)"])
    ∧ (jsonLd ≠ [] → strategyCascade jsonLd api html prev
        = ⟨jsonLd, "JSON-LD", ["JSON-LD"]⟩)
    ∧ (jsonLd = [] → api ≠ [] → strategyCascade jsonLd api html prev
        = ⟨api, "Internal API", ["JSON-LD", "Internal API"]⟩)
    ∧ (jsonLd = [] → api = [] → html ≠ [] → strategyCascade jsonLd api html prev
        = ⟨html, "HTML Parsing (Cheerio)",
            ["JSON-LD", "Internal API", "HTML Parsing (Cheerio)"]⟩) := by
  unfold strategyCascade
  split_ifs with h1 h2 h3 <;> simp_all [List.length_pos]

/-- Witness for C2: with a non-empty JSON-LD result the cascade stops after
strategy 1. -/
theorem strategy_cascade_order_witness :
    strategyCascade [lw "https://a/1"] [] [] "None"
      = ⟨[lw "https://a/1"], "JSON-LD", ["JSON-LD"]⟩ :=
  (strategy_cascade_order [lw "https://a/1"] [] [] "None").2.1 (List.cons_ne_nil _ _)

/-- C6: a detail-page response of 403 or 503, or a 200 whose title carries a
challenge marker, leaves the record completely unchanged (no enrichment-only
fields are added), contributes exactly one to the blocked counter, and
propagates no error (the step is total and returns the untouched record).
The second conjunct places the record inside an arbitrary enrichment batch:
the blockedCount of the pass is the sum over records, so this record raises it by
exactly one. -/
theorem profile_blocked_unchanged (l : Lawyer) (p : ProfilePage)
    (hurl : l.profileUrl ≠ "")
    (hb : p.statusCode = 403 ∨ p.statusCode = 503
        ∨ (p.statusCode = 200
            ∧ (containsSubstr p.title "Just a moment" = true
                ∨ containsSubstr p.title "Cloudflare" = true))) :
    enrichOne (fun _ => fetchLawyerProfile p) l = (toE l, 1)
    ∧ ∀ (pre post : List Lawyer),
        (enrichLawyersWithProfiles (fun _ => fetchLawyerProfile p) (pre ++ l :: post)).2
          = (enrichLawyersWithProfiles (fun _ => fetchLawyerProfile p) pre).2
            + 1
            + (enrichLawyersWithProfiles (fun _ => fetchLawyerProfile p) post).2 := by
  have hfp : fetchLawyerProfile p = some .blocked := by
    rcases hb with h | h | ⟨h2, ht⟩
    · simp [fetchLawyerProfile, h]
    · simp [fetchLawyerProfile, h]
    · rcases ht with ht | ht <;> simp [fetchLawyerProfile, h2, ht]
  have hone : enrichOne (fun _ => fetchLawyerProfile p) l = (toE l, 1) := by
    simp [enrichOne, hurl, hfp]
  refine ⟨hone, ?_⟩
  intro pre post
  simp [enrichLawyersWithProfiles, hone]
  omega

/-- Witness for C6: a concrete 403 response leaves a concrete record
untouched and counts exactly one blocked fetch. -/
theorem profile_blocked_unchanged_witness :
    enrichOne (fun _ => fetchLawyerProfile page403) (lw "https://a/1")
      = (toE (lw "https://a/1"), 1) :=
  (profile_blocked_unchanged (lw "https://a/1") page403 (by decide) (Or.inl rfl)).1

/-- C4 counterexample: a record whose original bio is non-empty still has
its bio replaced by the fetched one on a clean 200 response, so the fetched
bio is not adopted only when the original bio of the record is empty. -/
theorem enrich_bio_overlay_counterexample :
    ({ lw "https://a/1" with bio := "Original bio" } : Lawyer).bio = "Original bio"
    ∧ "Original bio" ≠ ""
    ∧ (enrichOne (fun _ => fetchLawyerProfile pageBio)
        { lw "https://a/1" with bio := "Original bio" }).1.core.bio = "Fetched bio"
    ∧ "Fetched bio" ≠ "Original bio" := by
  refine ⟨rfl, by decide, by decide, by decide⟩

/-- C4 amended: for every record whose detail-page fetch succeeds with a
non-blocked 200 response, enrichment prefers the fetched bio — the record
keeps its original bio only when the fetched bio is empty — and always sets
education and awards to the fetched lists; the record contributes nothing to
the blocked counter. -/
theorem enrich_success_overlay (l : Lawyer) (fetch : String → Option FetchOutcome)
    (d : ProfileData) (hurl : l.profileUrl ≠ "")
    (hf : fetch l.profileUrl = some (.info d)) :
    (enrichOne fetch l).1.core = { l with bio := if d.bio = "" then l.bio else d.bio }
    ∧ (enrichOne fetch l).1.education = some d.education
    ∧ (enrichOne fetch l).1.awards = some d.awards
    ∧ (enrichOne fetch l).2 = 0 := by
  simp [enrichOne, hurl, hf]

/-- Witness for the amended C4 at a concrete 200 response: the education
list is overlaid from the fetched page. -/
theorem enrich_success_overlay_witness :
    (enrichOne (fun _ => fetchLawyerProfile pageBio) (lw "https://a/1")).1.education
      = some ["Harvard Law"] := by
  have h := enrich_success_overlay (lw "https://a/1")
    (fun _ => fetchLawyerProfile pageBio)
    { bio := "Fetched bio", education := ["Harvard Law"], awards := ["Super Lawyers"] }
    (by decide) (by decide)
  exact h.2.1

/-- C7: when the challenge markers survive all three remediation attempts,
the page yields no records, exactly one diagnostic snapshot is written, no
next page is requested from this page, and the handler returns without
propagating an error (the run continues with the next queued page). -/
theorem challenge_exhausted_page (maxLawyers : Nat) (flag : Bool)
    (fetch : String → Option FetchOutcome) (st : RunState) (pg : PageInput)
    (h0 : pg.challengeAt 0 = true) (h1 : pg.challengeAt 1 = true)
    (h2 : pg.challengeAt 2 = true) :
    (processPage maxLawyers flag fetch st pg).emitted = []
    ∧ (processPage maxLawyers flag fetch st pg).snapshotWrites = 1
    ∧ (processPage maxLawyers flag fetch st pg).requestedNext = none
    ∧ (processPage maxLawyers flag fetch st pg).aborted = false := by
  have hc : cfRetryCount pg.challengeAt = 3 := by simp [cfRetryCount, h0, h1, h2]
  simp [processPage, hc]

/-- A page that never clears its challenge markers. -/
def pgChallenged : PageInput :=
  { challengeAt := fun _ => true, jsonLd := [lw "https://a/1"], api := [], html := []
    hasNextPage := true, nextPageUrl := "https://next" }

/-- Witness for C7 on a concretely always-challenged page. -/
theorem challenge_exhausted_page_witness :
    (processPage 50 false (fun _ => none) st0 pgChallenged).emitted = []
    ∧ (processPage 50 false (fun _ => none) st0 pgChallenged).snapshotWrites = 1
    ∧ (processPage 50 false (fun _ => none) st0 pgChallenged).requestedNext = none
    ∧ (processPage 50 false (fun _ => none) st0 pgChallenged).aborted = false :=
  challenge_exhausted_page 50 false (fun _ => none) st0 pgChallenged rfl rfl rfl

/-- A clean page yielding one fresh record, with an enabled well-formed
next-page link. -/
def pgOnePage : PageInput :=
  { challengeAt := fun _ => false
    jsonLd := [lw "https://www.avvo.com/attorneys/a1.html"]
    api := [], html := [], hasNextPage := true
    nextPageUrl := "https://www.avvo.com/page2" }

/-- C3 (code bug): the next-page condition at main.js line 874 tests
`totalLawyersScraped < maxLawyers` without the `maxLawyers > 0` guard used
at lines 831 and 864, so an explicit zero (documented as unbounded) budget
always stops pagination: with maxLawyers = 0 no handler invocation ever
requests a further page — in particular not on a concrete page that yields a
fresh record and has an enabled, well-formed next-page link. -/
theorem zero_budget_stops_pagination :
    (∀ (flag : Bool) (fetch : String → Option FetchOutcome) (st : RunState) (pg : PageInput),
        (processPage 0 flag fetch st pg).requestedNext = none)
    ∧ pgOnePage.hasNextPage = true
    ∧ (processPage 0 false (fun _ => none) st0 pgOnePage).emitted.length = 1
    ∧ (processPage 0 false (fun _ => none) st0 pgOnePage).requestedNext = none := by
  refine ⟨?_, rfl, by decide, by decide⟩
  intro flag fetch st pg
  simp only [processPage]
  split_ifs <;> simp_all

/-- Two records may share a profileUrl only when it is the empty one. -/
def ShareOnlyEmpty (a b : Lawyer) : Prop :=
  a.profileUrl = b.profileUrl → a.profileUrl = ""

/-- The seen-URL set only grows across one dedup pass. -/
theorem dedupFilter_seen_mono (seen : List String) (ls : List Lawyer) :
    seen ⊆ (dedupFilter seen ls).2 := by
  induction ls generalizing seen with
  | nil => simp [dedupFilter]
  | cons x xs ih =>
    simp only [dedupFilter]
    split_ifs with h1 h2
    · exact ih seen
    · exact ih seen
    · exact fun y hy => ih (x.profileUrl :: seen) (List.mem_cons_of_mem _ hy)

/-- Every admitted record with a non-empty URL ends up in the final set and
was not in the starting set. -/
theorem dedupFilter_out_mem (seen : List String) (ls : List Lawyer) :
    ∀ l ∈ (dedupFilter seen ls).1, l.profileUrl ≠ "" →
      l.profileUrl ∈ (dedupFilter seen ls).2 ∧ l.profileUrl ∉ seen := by
  induction ls generalizing seen with
  | nil => simp [dedupFilter]
  | cons x xs ih =>
    intro l hl hne
    simp only [dedupFilter] at hl ⊢
    split_ifs at hl ⊢ with h1 h2
    · rcases List.mem_cons.mp hl with rfl | hl'
      · exact absurd h1 hne
      · exact ih seen l hl' hne
    · exact ih seen l hl hne
    · rcases List.mem_cons.mp hl with rfl | hl'
      · exact ⟨dedupFilter_seen_mono _ xs (List.mem_cons_self _ _), h2⟩
      · obtain ⟨hin, hnotin⟩ := ih (x.profileUrl :: seen) l hl' hne
        exact ⟨hin, fun hmem => hnotin (List.mem_cons_of_mem _ hmem)⟩

/-- The records admitted by one dedup pass pairwise share no non-empty
URL. -/
theorem dedupFilter_pairwise (seen : List String) (ls : List Lawyer) :
    (dedupFilter seen ls).1.Pairwise ShareOnlyEmpty := by
  induction ls generalizing seen with
  | nil => simp [dedupFilter]
  | cons x xs ih =>
    simp only [dedupFilter]
    split_ifs with h1 h2
    · exact List.Pairwise.cons (fun b _ _ => h1) (ih seen)
    · exact ih seen
    · refine List.Pairwise.cons ?_ (ih _)
      intro b hb heq
      by_contra hne
      have hbne : b.profileUrl ≠ "" := fun h => hne (heq.trans h)
      have hnotin := (dedupFilter_out_mem _ xs b hb hbne).2
      exact hnotin (by rw [← heq]; exact List.mem_cons_self _ _)

/-- A record with empty profileUrl is always admitted, whatever the set. -/
theorem dedupFilter_admits_empty (seen : List String) (ls : List Lawyer) :
    ∀ l ∈ ls, l.profileUrl = "" → l ∈ (dedupFilter seen ls).1 := by
  induction ls generalizing seen with
  | nil => simp
  | cons x xs ih =>
    intro l hl he
    simp only [dedupFilter]
    split_ifs with h1 h2
    · rcases List.mem_cons.mp hl with rfl | hl'
      · exact List.mem_cons_self _ _
      · exact List.mem_cons_of_mem _ (ih seen l hl' he)
    · rcases List.mem_cons.mp hl with rfl | hl'
      · exact absurd he h1
      · exact ih seen l hl' he
    · rcases List.mem_cons.mp hl with rfl | hl'
      · exact List.mem_cons_self _ _
      · exact List.mem_cons_of_mem _ (ih (x.profileUrl :: seen) l hl' he)

/-- Across the remaining pages of a run, every emitted record with a
non-empty URL was not in the starting set. -/
theorem runDedup_out_fresh (seen : List String) (pgs : List (List Lawyer)) :
    ∀ l ∈ (runDedup seen pgs).1, l.profileUrl ≠ "" → l.profileUrl ∉ seen := by
  induction pgs generalizing seen with
  | nil => simp [runDedup]
  | cons pg pgs ih =>
    intro l hl hne
    simp only [runDedup] at hl
    rcases List.mem_append.mp hl with h | h
    · exact (dedupFilter_out_mem seen pg l h hne).2
    · exact fun hmem => ih _ l h hne (dedupFilter_seen_mono seen pg hmem)

/-- The full emitted stream of a run pairwise shares no non-empty URL. -/
theorem runDedup_pairwise (seen : List String) (pgs : List (List Lawyer)) :
    (runDedup seen pgs).1.Pairwise ShareOnlyEmpty := by
  induction pgs generalizing seen with
  | nil => simp [runDedup]
  | cons pg pgs ih =>
    simp only [runDedup]
    refine List.pairwise_append.mpr ⟨dedupFilter_pairwise seen pg, ih _, ?_⟩
    intro a ha b hb heq
    by_contra hne
    have hbne : b.profileUrl ≠ "" := fun h => hne (heq.trans h)
    have h1 : a.profileUrl ∈ (dedupFilter seen pg).2 :=
      (dedupFilter_out_mem seen pg a ha hne).1
    have h2 : b.profileUrl ∉ (dedupFilter seen pg).2 :=
      runDedup_out_fresh _ pgs b hb hbne
    rw [heq] at h1
    exact h2 h1

/-- C1: across a whole run, no two records emitted by the deduplication
stage share a non-empty profileUrl; the seen-URL set of the run is append-only
(each pass only extends it); and a record with empty profileUrl is always
admitted, regardless of what has been seen before. -/
theorem dedup_run_invariant :
    (∀ pages : List (List Lawyer),
        (runDedup [] pages).1.Pairwise ShareOnlyEmpty)
    ∧ (∀ (seen : List String) (ls : List Lawyer), seen ⊆ (dedupFilter seen ls).2)
    ∧ (∀ (seen : List String) (ls : List Lawyer) (l : Lawyer),
        l ∈ ls → l.profileUrl = "" → l ∈ (dedupFilter seen ls).1) :=
  ⟨fun pages => runDedup_pairwise [] pages,
   dedupFilter_seen_mono,
   fun seen ls l hl he => dedupFilter_admits_empty seen ls l hl he⟩

/-- Witness for C1: a concrete empty-URL record passes the filter even with
a non-empty seen set. -/
theorem dedup_run_invariant_witness :
    lw "" ∈ (dedupFilter ["https://a/1"] [lw ""]).1 :=
  dedup_run_invariant.2.2 ["https://a/1"] [lw ""] (lw "")
    (List.mem_singleton.mpr rfl) rfl

/-- Enrichment never changes the number of records. -/
theorem enrich_length (fetch : String → Option FetchOutcome) (ls : List Lawyer) :
    (enrichLawyersWithProfiles fetch ls).1.length = ls.length := by
  simp [enrichLawyersWithProfiles]

/-- The dedup pass never adds records. -/
theorem dedupFilter_length_le (seen : List String) (ls : List Lawyer) :
    (dedupFilter seen ls).1.length ≤ ls.length := by
  induction ls generalizing seen with
  | nil => simp [dedupFilter]
  | cons x xs ih =>
    simp only [dedupFilter]
    split_ifs with h1 h2
    · simpa using Nat.succ_le_succ (ih seen)
    · have := ih seen
      simp only [List.length_cons]
      omega
    · simpa using Nat.succ_le_succ (ih (x.profileUrl :: seen))

/-- A batch of records with distinct, non-empty, unseen URLs passes the
dedup filter unchanged. -/
theorem dedupFilter_all_fresh (seen : List String) (ls : List Lawyer)
    (hne : ∀ l ∈ ls, l.profileUrl ≠ "")
    (hnd : (ls.map (fun l => l.profileUrl)).Nodup)
    (hfresh : ∀ l ∈ ls, l.profileUrl ∉ seen) :
    (dedupFilter seen ls).1 = ls := by
  induction ls generalizing seen with
  | nil => simp [dedupFilter]
  | cons x xs ih =>
    have hxne := hne x (List.mem_cons_self _ _)
    have hxfresh := hfresh x (List.mem_cons_self _ _)
    have hnd' : x.profileUrl ∉ List.map (fun l => l.profileUrl) xs
        ∧ (List.map (fun l => l.profileUrl) xs).Nodup := by
      rw [List.map_cons, List.nodup_cons] at hnd
      exact hnd
    simp only [dedupFilter]
    rw [if_neg hxne, if_neg hxfresh]
    have htail : (dedupFilter (x.profileUrl :: seen) xs).1 = xs := by
      refine ih (x.profileUrl :: seen) (fun l hl => hne l (List.mem_cons_of_mem _ hl))
        hnd'.2 (fun l hl hmem => ?_)
      rcases List.mem_cons.mp hmem with h | h
      · exact hnd'.1 (h ▸ List.mem_map_of_mem _ hl)
      · exact hfresh l (List.mem_cons_of_mem _ hl) h
    simp [htail]

/-- C8: with a budget of 5, a fresh run state, and a clean first page whose
extraction yields 8 records with distinct, non-empty, unseen profile URLs,
exactly 5 records are emitted and no further page is requested. -/
theorem budget_five_of_eight (flag : Bool) (fetch : String → Option FetchOutcome)
    (st : RunState) (pg : PageInput)
    (htot : st.totalLawyersScraped = 0) (hseen : st.seenLawyerUrls = [])
    (hcf : pg.challengeAt 0 = false)
    (hlen : pg.jsonLd.length = 8)
    (hne : ∀ l ∈ pg.jsonLd, l.profileUrl ≠ "")
    (hnd : (pg.jsonLd.map (fun l => l.profileUrl)).Nodup) :
    (processPage 5 flag fetch st pg).emitted.length = 5
    ∧ (processPage 5 flag fetch st pg).requestedNext = none := by
  have hc : cfRetryCount pg.challengeAt = 0 := by simp [cfRetryCount, hcf]
  have hcas : ∀ m, strategyCascade pg.jsonLd pg.api pg.html m
      = ⟨pg.jsonLd, "JSON-LD", ["JSON-LD"]⟩ := by
    intro m
    unfold strategyCascade
    rw [if_pos (by omega)]
  have hsub : pg.jsonLd.take 5 ⊆ pg.jsonLd := (List.take_sublist 5 pg.jsonLd).subset
  have htake : (pg.jsonLd.take 5).length = 5 := by
    rw [List.length_take, hlen]
    decide
  have hndtake : ((pg.jsonLd.take 5).map (fun l => l.profileUrl)).Nodup := by
    rw [List.map_take]
    exact List.Nodup.sublist (List.take_sublist 5 _) hnd
  have hdd : (dedupFilter [] (pg.jsonLd.take 5)).1 = pg.jsonLd.take 5 :=
    dedupFilter_all_fresh [] (pg.jsonLd.take 5)
      (fun l hl => hne l (hsub hl)) hndtake (fun l _ => List.not_mem_nil _)
  cases flag <;>
    simp [processPage, hc, hcas, htot, hseen, hlen, hdd, htake, enrich_length]

/-- A page yielding eight fresh records with distinct URLs. -/
def pgEight : PageInput :=
  { challengeAt := fun _ => false
    jsonLd := [lw "https://a/1", lw "https://a/2", lw "https://a/3", lw "https://a/4",
               lw "https://a/5", lw "https://a/6", lw "https://a/7", lw "https://a/8"]
    api := [], html := [], hasNextPage := true
    nextPageUrl := "https://www.avvo.com/page2" }

/-- Witness for C8 on the concrete eight-record page. -/
theorem budget_five_of_eight_witness :
    (processPage 5 false (fun _ => none) st0 pgEight).emitted.length = 5
    ∧ (processPage 5 false (fun _ => none) st0 pgEight).requestedNext = none :=
  budget_five_of_eight false (fun _ => none) st0 pgEight rfl rfl rfl (by decide)
    (by decide) (by decide)

/-- C9: when the input omits maxLawyers, the budget resolves to exactly 50 —
not to the unbounded sentinel 0 — and a page processed from a fresh run
state under the resolved default never emits more than 50 records. -/
theorem default_max_records :
    resolveMaxLawyers none = 50
    ∧ resolveMaxLawyers none ≠ 0
    ∧ ∀ (flag : Bool) (fetch : String → Option FetchOutcome)
        (st : RunState) (pg : PageInput),
        st.totalLawyersScraped = 0 →
        (processPage (resolveMaxLawyers none).toNat flag fetch st pg).emitted.length ≤ 50 := by
  refine ⟨rfl, by decide, ?_⟩
  intro flag fetch st pg htot
  have h50 : (resolveMaxLawyers none).toNat = 50 := rfl
  rw [h50]
  have hb : ∀ ls : List Lawyer,
      (dedupFilter st.seenLawyerUrls (ls.take (50 - st.totalLawyersScraped))).1.length ≤ 50 := by
    intro ls
    have h1 := dedupFilter_length_le st.seenLawyerUrls (ls.take (50 - st.totalLawyersScraped))
    have h2 := List.length_take_le (50 - st.totalLawyersScraped) ls
    omega
  simp only [processPage]
  split_ifs <;> simp_all [enrich_length]

/-- Witness for C9 at a concrete page and fresh state. -/
theorem default_max_records_witness :
    (processPage (resolveMaxLawyers none).toNat false (fun _ => none)
        st0 pgEight).emitted.length ≤ 50 :=
  default_max_records.2.2 false (fun _ => none) st0 pgEight rfl

end Avvo
